import Mathlib

/-!
Verification of the crdt-benches harness.

The repository benchmarks collaborative-text replication engines by replaying
recorded editing traces through a uniform adapter interface (`Upstream` /
`Downstream` in `src/rope.rs`) driven by two criterion benchmark drivers
(`upstream::bench` / `downstream::bench` in `src/main.rs`).

Modelling conventions used throughout this development:
* Document content and patch text are `List Char`; Rust's `String::len`
  (UTF-8 byte count) is `byteLen`, codepoint count is `List.length`.
* Rust panics (`unimplemented!`, `todo!`, a failed `assert_eq!`, a failed
  `.unwrap()`) are modelled as `Except.error` values of type `RustPanic`;
  ordinary returns are `Except.ok`.
* The wrapped replication engines (automerge/autosurgeon, cola,
  diamond-types, yrs) and the trace loader `crdt_testdata` are external
  crates, not part of this repository; their operations appear as abstract
  parameters (`AmEngine`, `ColaEngine`, `DtEngine`, `YrsEngine`) so that the
  theorems hold for every engine behaviour, except where a concrete instance
  is needed as an input.
* Mutation of `&mut self` is explicit state passing.
-/

/-- The ways the benchmark code can panic: `unimplemented!()`, `todo!()`,
a failed `assert_eq!`, and a failed `Result::unwrap()`. -/
inductive RustPanic : Type where
  | unimplemented
  | todo
  | assertFailed
  | unwrapFailed
  deriving DecidableEq, Repr

/-- `Except.isOk`, which this toolchain's core library does not provide. -/
def exIsOk {ε α : Type} : Except ε α → Bool
  | .ok _ => true
  | .error _ => false

instance {ε α : Type} [DecidableEq ε] [DecidableEq α] : DecidableEq (Except ε α) := fun a b =>
  match a, b with
  | .ok x, .ok y =>
    if h : x = y then isTrue (by rw [h]) else isFalse fun hc => h (Except.ok.inj hc)
  | .error e, .error f =>
    if h : e = f then isTrue (by rw [h]) else isFalse fun hc => h (Except.error.inj hc)
  | .ok _, .error _ => isFalse fun hc => nomatch hc
  | .error _, .ok _ => isFalse fun hc => nomatch hc

/-- `crdt_testdata::TestPatch(pos, del, ins)`: one atomic edit. -/
structure TestPatch : Type where
  pos : Nat
  del : Nat
  ins : List Char
  deriving DecidableEq, Repr

/-- One transaction of a trace: an ordered list of patches. -/
structure TestTxn : Type where
  patches : List TestPatch
  deriving DecidableEq, Repr

/-- `crdt_testdata::TestData`: a recorded editing trace. -/
structure TestData : Type where
  start_content : List Char
  end_content : List Char
  txns : List TestTxn
  deriving DecidableEq, Repr

/-- Rust's `String::len`: the UTF-8 byte length of a string. -/
def byteLen (s : List Char) : Nat := (s.map Char.utf8Size).sum

/-- The total number of patches in a trace (`TestData::len` in
`crdt_testdata`, used as the criterion throughput element count). -/
def totalPatches (t : TestData) : Nat := (t.txns.map fun txn => txn.patches.length).sum

/-- Applying one patch to document content (codepoint offsets). -/
def applyPatch (doc : List Char) (p : TestPatch) : List Char :=
  doc.take p.pos ++ p.ins ++ doc.drop (p.pos + p.del)

/-- Modelled from the spec: the trace-corpus collaborator (`crdt_testdata`,
whose source is not part of this repository) exposes `chars_to_bytes`, "a
pure transform" producing "a derived variant ... where all positions/lengths
are reinterpreted as byte offsets instead of codepoint offsets". One patch's
codepoint position and deletion count are reinterpreted against the current
document content. -/
def charsToBytesPatch (doc : List Char) (p : TestPatch) : TestPatch :=
  { pos := byteLen (doc.take p.pos)
    del := byteLen ((doc.drop p.pos).take p.del)
    ins := p.ins }

/-- Modelled from the spec: one step of `chars_to_bytes`, carrying the
current (codepoint-addressed) document content through the trace. -/
def charsToBytesStep (acc : List Char × List TestPatch) (p : TestPatch) :
    List Char × List TestPatch :=
  (applyPatch acc.1 p, acc.2 ++ [charsToBytesPatch acc.1 p])

/-- Modelled from the spec: `crdt_testdata`'s `chars_to_bytes` transform of a
whole trace. Contents are unchanged; every patch's position and length are
reinterpreted as byte offsets. -/
def charsToBytes (t : TestData) : TestData :=
  { start_content := t.start_content
    end_content := t.end_content
    txns := (t.txns.foldl
        (fun acc txn =>
          let inner := txn.patches.foldl charsToBytesStep (acc.1, [])
          (inner.1, acc.2 ++ [⟨inner.2⟩]))
        (t.start_content, ([] : List TestTxn))).2 }

/-- The `Upstream` trait of `src/rope.rs`: the per-engine adapter interface
for local edits. `EDITS_USE_BYTE_OFFSETS` is a static per-adapter constant
with default value `false`; `replace` is a trait method with a provided
default body (`defaultReplace`) that implementations may override. The Rust
signatures return plainly, but a method body may panic (for example the
`reconcile(...).unwrap()` inside the Automerge impl's `from_str` and
`replace`), so `from_str`, `insert`, `remove` and `replace` are all
`Except RustPanic`-valued; impls whose bodies contain no panicking construct
return `.ok` unconditionally. -/
structure UpstreamOps (σ : Type) : Type where
  editsUseByteOffsets : Bool := false
  from_str : List Char → Except RustPanic σ
  insert : σ → Nat → List Char → Except RustPanic σ
  remove : σ → Nat → Nat → Except RustPanic σ
  len : σ → Nat
  replace : σ → Nat → Nat → List Char → Except RustPanic σ

/-- The provided default body of `Upstream::replace` (`src/rope.rs:21-32`):
`remove` the range only when it is non-empty (`end > start`), then `insert`
only when `text` is non-empty. -/
def defaultReplace {σ : Type} (ins : σ → Nat → List Char → Except RustPanic σ)
    (rem : σ → Nat → Nat → Except RustPanic σ)
    (s : σ) (start stop : Nat) (text : List Char) : Except RustPanic σ :=
  (if stop > start then rem s start stop else .ok s).bind fun s =>
    if text ≠ [] then ins s start text else .ok s

/-- Assembles an `Upstream` implementation that keeps the trait's provided
`replace` body (as the `cola`, `Dt` and `Yrs` impls do) and the trait's
default `EDITS_USE_BYTE_OFFSETS` value. -/
def mkUpstreamOps {σ : Type} (fs : List Char → Except RustPanic σ)
    (ins : σ → Nat → List Char → Except RustPanic σ)
    (rem : σ → Nat → Nat → Except RustPanic σ) (ln : σ → Nat) : UpstreamOps σ :=
  { from_str := fs, insert := ins, remove := rem, len := ln, replace := defaultReplace ins rem }

/-- The `Downstream` trait of `src/rope.rs:185-191`: adds an associated
update type `υ`, trace-wide update derivation, and update application. -/
structure DownstreamOps (σ υ : Type) extends UpstreamOps σ where
  upstream_updates : TestData → Except RustPanic (σ × List υ)
  apply_update : σ → υ → Except RustPanic σ

/-- The trace actually replayed by both drivers: `main.rs` pre-transforms the
loaded trace with `chars_to_bytes` exactly when the adapter declares
`EDITS_USE_BYTE_OFFSETS` (`src/main.rs:21-23` and `54-56`). -/
def benchTrace {σ : Type} (ops : UpstreamOps σ) (trace : TestData) : TestData :=
  if ops.editsUseByteOffsets then charsToBytes trace else trace

/-- The replay loop of `upstream::bench`'s closure (`src/main.rs:29-34`):
a fresh instance from the trace's start content, then one `replace` per
patch of every transaction, in order. -/
def upstreamReplay {σ : Type} (ops : UpstreamOps σ) (t : TestData) : Except RustPanic σ :=
  (ops.from_str t.start_content).bind fun rope =>
    t.txns.foldlM
      (fun rope txn =>
        txn.patches.foldlM (fun rope p => ops.replace rope p.pos (p.pos + p.del) p.ins) rope)
      rope

/-- `upstream::bench`'s closure on an already-transformed trace: replay, then
`assert_eq!(rope.len(), trace.end_content.len())` (`src/main.rs:35`), where
Rust's `String::len` is the byte length. -/
def upstreamBenchRaw {σ : Type} (ops : UpstreamOps σ) (t : TestData) : Except RustPanic σ :=
  (upstreamReplay ops t).bind fun rope =>
    if ops.len rope = byteLen t.end_content then .ok rope else .error .assertFailed

/-- `upstream::bench` (`src/main.rs:18-38`): transform the trace according to
the adapter's `EDITS_USE_BYTE_OFFSETS`, then run the replay-and-assert
closure. -/
def upstreamBench {σ : Type} (ops : UpstreamOps σ) (trace : TestData) : Except RustPanic σ :=
  upstreamBenchRaw ops (benchTrace ops trace)

/-- One trial of `downstream::bench`'s closure (`src/main.rs:63-69`): clone
the baseline, apply every captured update in sequence, then
`assert_eq!(crdt.len(), trace.end_content.len())`. -/
def downstreamTrial {σ υ : Type} (ops : DownstreamOps σ υ) (crdt : σ) (updates : List υ)
    (expected : Nat) : Except RustPanic σ :=
  (updates.foldlM ops.apply_update crdt).bind fun c =>
    if ops.toUpstreamOps.len c = expected then .ok c else .error .assertFailed

/-- The measurement harness (`criterion`'s `b.iter`) runs the trial closure
repeatedly; a panic in any trial aborts the run. -/
def iterTrials {σ : Type} (n : Nat) (trial : Except RustPanic σ) : Except RustPanic (List σ) :=
  match n with
  | 0 => .ok []
  | n + 1 => trial.bind fun r => (iterTrials n trial).bind fun rs => .ok (r :: rs)

/-- `downstream::bench` on an already-transformed trace (`src/main.rs:60-70`):
derive `(crdt, updates)` once via `upstream_updates`, then run the
clone-apply-assert trial once per measurement iteration. -/
def downstreamBenchRaw {σ υ : Type} (ops : DownstreamOps σ υ) (t : TestData) (iters : Nat) :
    Except RustPanic (List σ) :=
  (ops.upstream_updates t).bind fun p =>
    iterTrials iters (downstreamTrial ops p.1 p.2 (byteLen t.end_content))

/-- `downstream::bench` (`src/main.rs:51-71`): transform the trace according
to the adapter's `EDITS_USE_BYTE_OFFSETS`, then derive updates once and run
the measurement trials. -/
def downstreamBench {σ υ : Type} (ops : DownstreamOps σ υ) (trace : TestData) (iters : Nat) :
    Except RustPanic (List σ) :=
  downstreamBenchRaw ops (benchTrace ops.toUpstreamOps trace) iters

/-- Follows the spec's words, not the source: a string length "measured in
A's declared offset unit" — bytes when the adapter declares
`EDITS_USE_BYTE_OFFSETS`, codepoints otherwise. Used to state claim C1 as
written, for comparison with what the driver actually asserts. -/
def specUnitLen {σ : Type} (ops : UpstreamOps σ) (s : List Char) : Nat :=
  if ops.editsUseByteOffsets then byteLen s else s.length

/-! ## The Automerge adapter (`src/rope.rs:35-78`, `227-237`) -/

/-- Rust's `Result::unwrap`: panics on `Err`. -/
def rustUnwrap {α : Type} : Except Unit α → Except RustPanic α
  | .ok a => .ok a
  | .error _ => .error .unwrapFailed

/-- Abstract model of the external automerge/autosurgeon engine: a document
type with `reconcile` (pushing the adapter's text buffer into the document;
it returns a `Result`, which the adapter `.unwrap()`s), autosurgeon
`Text::splice` on the buffered text (taking an `isize` deletion count), and
`AutoCommit::merge` (whose returned `Result` the adapter discards). -/
structure AmEngine (AmDoc : Type) : Type where
  newDoc : AmDoc
  reconcile : AmDoc → List Char → Except Unit AmDoc
  splice : List Char → Nat → Int → List Char → List Char
  merge : AmDoc → AmDoc → AmDoc

/-- The `Automerge` adapter state: an `AutoCommit` document plus the
autosurgeon `Text` buffer (modelled by its character content). -/
structure Automerge (AmDoc : Type) : Type where
  doc : AmDoc
  text : List Char
  deriving DecidableEq, Repr

/-- `Automerge::from_str` (`src/rope.rs:50-55`): a new document reconciled
with the text; `reconcile(&mut doc, &text).unwrap()` panics when the engine's
reconcile fails. -/
def Automerge.from_str {A : Type} (E : AmEngine A) (s : List Char) :
    Except RustPanic (Automerge A) :=
  (rustUnwrap (E.reconcile E.newDoc s)).bind fun doc => .ok { doc := doc, text := s }

/-- `Automerge::insert` is `unimplemented!()` (`src/rope.rs:57-60`). -/
def Automerge.insert {A : Type} (_a : Automerge A) (_i : Nat) (_t : List Char) :
    Except RustPanic (Automerge A) :=
  .error .unimplemented

/-- `Automerge::remove` is `unimplemented!()` (`src/rope.rs:62-65`). -/
def Automerge.remove {A : Type} (_a : Automerge A) (_s _e : Nat) :
    Except RustPanic (Automerge A) :=
  .error .unimplemented

/-- The state produced by a successful `Automerge::replace`, expressed with a
function `g` that witnesses the successful outcomes of the engine's
`reconcile` (`E.reconcile d t = .ok (g d t)`): splice the text buffer
(deletion count `range.end - range.start` cast to `isize`), then reconcile
the document with the new buffer. -/
def Automerge.spliced {A : Type} (E : AmEngine A) (g : A → List Char → A) (a : Automerge A)
    (start stop : Nat) (text : List Char) : Automerge A :=
  { doc := g a.doc (E.splice a.text start ((stop - start : Nat) : Int) text)
    text := E.splice a.text start ((stop - start : Nat) : Int) text }

/-- `Automerge::replace` (`src/rope.rs:67-72`): overrides the trait default;
splices unconditionally (no emptiness checks) and then
`reconcile(...).unwrap()`s, so its only panic is a failed unwrap (the
source's mutated `self.text` local is inlined; the expression is pure, so
the value is the same). -/
def Automerge.replace {A : Type} (E : AmEngine A) (a : Automerge A) (start stop : Nat)
    (text : List Char) : Except RustPanic (Automerge A) :=
  (rustUnwrap
      (E.reconcile a.doc (E.splice a.text start ((stop - start : Nat) : Int) text))).bind
    fun doc => .ok { doc := doc, text := E.splice a.text start ((stop - start : Nat) : Int) text }

/-- `Automerge::len` (`src/rope.rs:74-77`): `self.text.text.as_str().len()`,
a byte count. -/
def Automerge.len {A : Type} (a : Automerge A) : Nat := byteLen a.text

/-- The `impl Upstream for Automerge` block: note the `replace` override and
the defaulted (absent) `EDITS_USE_BYTE_OFFSETS`. -/
def Automerge.ops {A : Type} (E : AmEngine A) : UpstreamOps (Automerge A) :=
  { from_str := Automerge.from_str E
    insert := Automerge.insert
    remove := Automerge.remove
    len := Automerge.len
    replace := Automerge.replace E }

/-- `<Automerge as Downstream>::upstream_updates` is `todo!()`
(`src/rope.rs:230-232`). -/
def Automerge.upstream_updates {A : Type} (_trace : TestData) :
    Except RustPanic (Automerge A × List (Automerge A)) :=
  .error .todo

/-- `<Automerge as Downstream>::apply_update` (`src/rope.rs:234-236`):
merge the other document, discarding the returned `Result`. -/
def Automerge.apply_update {A : Type} (E : AmEngine A) (a other : Automerge A) : Automerge A :=
  { a with doc := E.merge a.doc other.doc }

/-! ## The cola adapter (`src/rope.rs:80-103`) -/

/-- Abstract model of the external `cola` crate: `Replica::new`, `inserted`
and `deleted` (returning an `Insertion`/`Deletion` the adapter discards),
and `len`. -/
structure ColaEngine (Replica Ins Del : Type) : Type where
  new : Nat → Nat → Replica
  inserted : Replica → Nat → Nat → Replica × Ins
  deleted : Replica → Nat → Nat → Replica × Del
  len : Replica → Nat

/-- The `impl Upstream for cola::Replica` block: byte offsets, trait-default
`replace`, text lengths measured with `str::len` (bytes). -/
def Cola.ops {R I D : Type} (E : ColaEngine R I D) : UpstreamOps R :=
  { mkUpstreamOps (fun s => .ok (E.new 1 (byteLen s)))
      (fun r i s => .ok (E.inserted r i (byteLen s)).1)
      (fun r a b => .ok (E.deleted r a b).1)
      E.len with
    editsUseByteOffsets := true }

/-! ## The diamond-types adapter (`src/rope.rs:105-137`, `193-225`) -/

/-- `diamond_types::list::encoding::EncodeOptions` as constructed at
`src/rope.rs:201-208`. -/
structure DtEncodeOptions : Type where
  user_data : Option (List Nat)
  store_start_branch_content : Bool
  store_inserted_content : Bool
  store_deleted_content : Bool
  compress_content : Bool
  verbose : Bool
  deriving DecidableEq, Repr

/-- The options value used by `Dt::upstream_updates`. -/
def dtEncodeOptions : DtEncodeOptions :=
  { user_data := none
    store_start_branch_content := true
    store_inserted_content := false
    store_deleted_content := false
    compress_content := false
    verbose := false }

/-- Abstract model of the external `diamond-types` crate: op-log creation,
agent registration, insert/delete recording (returning the new time),
checkout length, incremental encoding, and `decode_and_add`, which mutates
the op log and returns a `Result` (frontier or parse error). -/
structure DtEngine (OpLog : Type) : Type where
  newOpLog : OpLog
  getOrCreateAgentId : OpLog → List Char → OpLog × Nat
  addInsert : OpLog → Nat → Nat → List Char → OpLog × Nat
  addDeleteWithoutContent : OpLog → Nat → Nat → Nat → OpLog × Nat
  checkoutTipLen : OpLog → Nat
  encodeFrom : OpLog → DtEncodeOptions → Nat → List Nat
  decodeAndAdd : OpLog → List Nat → OpLog × Except Unit (List Nat)

/-- The `Dt` adapter state (`src/rope.rs:105-110`). -/
structure Dt (OpLog : Type) : Type where
  oplog : OpLog
  agent : Nat
  time : Nat
  deriving DecidableEq, Repr

/-- `Dt::from_str` (`src/rope.rs:115-121`). -/
def Dt.from_str {O : Type} (E : DtEngine O) (s : List Char) : Dt O :=
  let r0 := E.getOrCreateAgentId E.newOpLog ("bench".toList)
  let r1 := E.addInsert r0.1 r0.2 0 s
  { oplog := r1.1, agent := r0.2, time := r1.2 }

/-- `Dt::insert` (`src/rope.rs:123-126`). -/
def Dt.insert {O : Type} (E : DtEngine O) (d : Dt O) (i : Nat) (s : List Char) : Dt O :=
  let r := E.addInsert d.oplog d.agent i s
  { d with oplog := r.1, time := r.2 }

/-- `Dt::remove` (`src/rope.rs:128-131`). -/
def Dt.remove {O : Type} (E : DtEngine O) (d : Dt O) (a b : Nat) : Dt O :=
  let r := E.addDeleteWithoutContent d.oplog d.agent a b
  { d with oplog := r.1, time := r.2 }

/-- `Dt::len` (`src/rope.rs:133-136`). -/
def Dt.len {O : Type} (E : DtEngine O) (d : Dt O) : Nat := E.checkoutTipLen d.oplog

/-- The `impl Upstream for Dt` block: trait-default `replace`, defaulted
(absent) `EDITS_USE_BYTE_OFFSETS`. -/
def Dt.ops {O : Type} (E : DtEngine O) : UpstreamOps (Dt O) :=
  mkUpstreamOps (fun s => .ok (Dt.from_str E s)) (fun d i s => .ok (Dt.insert E d i s))
    (fun d a b => .ok (Dt.remove E d a b)) (Dt.len E)

/-- The body of `Dt::upstream_updates`' per-patch loop (`src/rope.rs:211-216`):
remember the time before the patch, `replace`, then encode the op log from
that time and append the encoded update. -/
def dtDeriveStep {O : Type} (E : DtEngine O) (acc : Dt O × List (List Nat)) (p : TestPatch) :
    Except RustPanic (Dt O × List (List Nat)) :=
  let encode_from := acc.1.time
  ((Dt.ops E).replace acc.1 p.pos (p.pos + p.del) p.ins).bind fun up =>
    .ok (up, acc.2 ++ [E.encodeFrom up.oplog dtEncodeOptions encode_from])

/-- `Dt::upstream_updates` (`src/rope.rs:196-220`): replay the trace against
an internal source instance, capturing one encoded update per patch; return
a separate freshly created instance together with the updates. -/
def Dt.upstream_updates {O : Type} (E : DtEngine O) (trace : TestData) :
    Except RustPanic (Dt O × List (List Nat)) :=
  (trace.txns.foldlM (fun acc (txn : TestTxn) => txn.patches.foldlM (dtDeriveStep E) acc)
      (Dt.from_str E trace.start_content, ([] : List (List Nat)))).bind fun acc =>
    .ok (Dt.from_str E trace.start_content, acc.2)

/-- `Dt::apply_update` (`src/rope.rs:222-224`):
`let _ = self.oplog.decode_and_add(update.as_slice());` — the op log is
replaced by whatever `decode_and_add` left behind and the returned `Result`
is discarded. -/
def Dt.apply_update {O : Type} (E : DtEngine O) (d : Dt O) (update : List Nat) : Dt O :=
  { d with oplog := (E.decodeAndAdd d.oplog update).1 }

/-- The `impl Downstream for Dt` block. -/
def Dt.downstreamOps {O : Type} (E : DtEngine O) : DownstreamOps (Dt O) (List Nat) :=
  { toUpstreamOps := Dt.ops E
    upstream_updates := Dt.upstream_updates E
    apply_update := fun d u => .ok (Dt.apply_update E d u) }

/-! ## The yrs adapter (`src/rope.rs:139-183`, `239-269`) -/

/-- Abstract model of the external `yrs` crate: documents, text handles,
state vectors, and v1-encoded updates (`decode_v1` may fail, which the
adapter `.unwrap()`s). -/
structure YrsEngine (Doc TextRef SV Upd : Type) : Type where
  newDoc : Doc
  getOrInsertText : Doc → List Char → Doc × TextRef
  push : Doc → TextRef → List Char → Doc
  insertText : Doc → TextRef → Nat → List Char → Doc
  removeRange : Doc → TextRef → Nat → Nat → Doc
  textLen : Doc → TextRef → Nat
  stateVector : Doc → SV
  encodeDiffV1 : Doc → SV → List Nat
  decodeV1 : List Nat → Except Unit Upd
  applyUpdate : Doc → Upd → Doc

/-- The `Yrs` adapter state (`src/rope.rs:139-143`). -/
structure Yrs (Doc TextRef : Type) : Type where
  doc : Doc
  text : TextRef
  deriving DecidableEq, Repr

/-- `Yrs::from_str` (`src/rope.rs:149-159`). -/
def Yrs.from_str {D T SV U : Type} (E : YrsEngine D T SV U) (s : List Char) : Yrs D T :=
  let r := E.getOrInsertText E.newDoc ("bench".toList)
  { doc := E.push r.1 r.2 s, text := r.2 }

/-- `Yrs::insert` (`src/rope.rs:161-166`). -/
def Yrs.insert {D T SV U : Type} (E : YrsEngine D T SV U) (y : Yrs D T) (i : Nat)
    (s : List Char) : Yrs D T :=
  { y with doc := E.insertText y.doc y.text i s }

/-- `Yrs::remove` (`src/rope.rs:168-175`): the removal length is
`range.end - range.start`. -/
def Yrs.remove {D T SV U : Type} (E : YrsEngine D T SV U) (y : Yrs D T) (a b : Nat) : Yrs D T :=
  let len := b - a
  { y with doc := E.removeRange y.doc y.text a len }

/-- `Yrs::len` (`src/rope.rs:177-182`). -/
def Yrs.len {D T SV U : Type} (E : YrsEngine D T SV U) (y : Yrs D T) : Nat :=
  E.textLen y.doc y.text

/-- The `impl Upstream for Yrs` block: byte offsets, trait-default
`replace`. -/
def Yrs.ops {D T SV U : Type} (E : YrsEngine D T SV U) : UpstreamOps (Yrs D T) :=
  { mkUpstreamOps (fun s => .ok (Yrs.from_str E s)) (fun y i s => .ok (Yrs.insert E y i s))
      (fun y a b => .ok (Yrs.remove E y a b)) (Yrs.len E) with
    editsUseByteOffsets := true }

/-- The body of `Yrs::upstream_updates`' per-patch loop (`src/rope.rs:250-258`):
`replace` on the upstream replica, encode the diff against the downstream
replica's state vector, decode and apply it to the downstream replica, then
decode it again and append it to the output. The accumulator is
`(upstream, downstream, updates)`; the source's local `sv`/`enc_update`
bindings are inlined (the expressions are pure, so the value is the same). -/
def yrsDeriveStep {D T SV U : Type} (E : YrsEngine D T SV U)
    (acc : Yrs D T × Yrs D T × List U) (p : TestPatch) :
    Except RustPanic (Yrs D T × Yrs D T × List U) :=
  ((Yrs.ops E).replace acc.1 p.pos (p.pos + p.del) p.ins).bind fun up =>
    (rustUnwrap (E.decodeV1 (E.encodeDiffV1 up.doc (E.stateVector acc.2.1.doc)))).bind
      fun update =>
        (rustUnwrap (E.decodeV1 (E.encodeDiffV1 up.doc (E.stateVector acc.2.1.doc)))).bind
          fun update2 =>
            .ok (up, { doc := E.applyUpdate acc.2.1.doc update, text := acc.2.1.text },
              acc.2.2 ++ [update2])

/-- `Yrs::upstream_updates` (`src/rope.rs:242-262`): replay the trace against
an internal upstream replica while feeding each per-patch diff to an internal
downstream replica, collecting one decoded update per patch; return a
separate freshly created instance together with the updates. -/
def Yrs.upstream_updates {D T SV U : Type} (E : YrsEngine D T SV U) (trace : TestData) :
    Except RustPanic (Yrs D T × List U) :=
  (trace.txns.foldlM (fun acc (txn : TestTxn) => txn.patches.foldlM (yrsDeriveStep E) acc)
      (Yrs.from_str E trace.start_content, Yrs.from_str E trace.start_content,
        ([] : List U))).bind
    fun acc => .ok (Yrs.from_str E trace.start_content, acc.2.2)

/-- `<Yrs as Downstream>::apply_update` is `todo!()` (`src/rope.rs:264-268`). -/
def Yrs.apply_update {D T SV U : Type} (_E : YrsEngine D T SV U) (_y : Yrs D T) (_u : U) :
    Except RustPanic (Yrs D T) :=
  .error .todo

/-! ## Concrete instances used as inputs to witnesses and counterexamples -/

/-- A reference rope over `List Char` with codepoint offsets: `insert`. -/
def listInsert (s : List Char) (i : Nat) (t : List Char) : Except RustPanic (List Char) :=
  .ok (s.take i ++ t ++ s.drop i)

/-- A reference rope over `List Char` with codepoint offsets: `remove`. -/
def listRemove (s : List Char) (a b : Nat) : Except RustPanic (List Char) :=
  .ok (s.take a ++ s.drop b)

/-- A concrete, well-behaved upstream adapter: document content itself is the
state, offsets and `len` are codepoints, `EDITS_USE_BYTE_OFFSETS` is left at
its default `false`. -/
def listOps : UpstreamOps (List Char) :=
  mkUpstreamOps (fun s => .ok s) listInsert listRemove List.length

/-- A concrete downstream adapter over `listOps` whose updates are the
patches themselves. -/
def listDownstreamOps : DownstreamOps (List Char) TestPatch :=
  { toUpstreamOps := listOps
    upstream_updates := fun trace =>
      .ok (trace.start_content, (trace.txns.map TestTxn.patches).flatten)
    apply_update := fun s p => .ok (applyPatch s p) }

/-- A trace whose end content contains a multi-byte character while the
(unchanged) document is plain ASCII: start `"ab"`, no patches, end `"é"`
(1 codepoint, 2 bytes). -/
def uCexTrace : TestData :=
  { start_content := "ab".toList, end_content := "é".toList, txns := [] }

/-- The spec's scenario trace: start `"hello world"`, one patch
`(6, 5, "there")`, end `"hello there"`. -/
def helloTrace : TestData :=
  { start_content := "hello world".toList
    end_content := "hello there".toList
    txns := [⟨[⟨6, 5, "there".toList⟩]⟩] }

/-- A two-patch trace (two transactions of one patch each). -/
def twoPatchTrace : TestData :=
  { start_content := []
    end_content := "hello world".toList
    txns := [⟨[⟨0, 0, "hello".toList⟩]⟩, ⟨[⟨5, 0, " world".toList⟩]⟩] }

/-- A concrete diamond-types engine model over `OpLog := Nat` (the op log
counts recorded operations; `encodeFrom` encodes the op log value and the
start time). -/
def dtE : DtEngine Nat :=
  { newOpLog := 0
    getOrCreateAgentId := fun o _ => (o, 7)
    addInsert := fun o _ _ _ => (o + 1, o)
    addDeleteWithoutContent := fun o _ _ _ => (o + 1, o)
    checkoutTipLen := fun o => o
    encodeFrom := fun o _ f => [o, f]
    decodeAndAdd := fun o u => (o + u.length, .ok []) }

/-- A diamond-types engine model whose `decode_and_add` always fails,
leaving the op log unchanged. -/
def dtEfail : DtEngine Nat :=
  { dtE with decodeAndAdd := fun o _ => (o, .error ()) }

/-- A concrete yrs engine model: a document is its character content, the
state vector is a length, an encoded diff is the tail beyond that length
(as codepoints), an update is text to append. -/
def yrsE : YrsEngine (List Char) Unit Nat (List Char) :=
  { newDoc := []
    getOrInsertText := fun d _ => (d, ())
    push := fun d _ s => d ++ s
    insertText := fun d _ i s => d.take i ++ s ++ d.drop i
    removeRange := fun d _ a len => d.take a ++ d.drop (a + len)
    textLen := fun d _ => d.length
    stateVector := fun d => d.length
    encodeDiffV1 := fun d sv => (d.drop sv).map Char.toNat
    decodeV1 := fun ns => .ok (ns.map Char.ofNat)
    applyUpdate := fun d u => d ++ u }

/-- A concrete automerge engine model whose documents are their character
content and whose `reconcile` always succeeds (returning the new text). -/
def amEok : AmEngine (List Char) :=
  { newDoc := []
    reconcile := fun _ t => .ok t
    splice := fun s pos del t => s.take pos ++ t ++ s.drop (pos + del.toNat)
    merge := fun a b => a ++ b }

/-! ## Generic helper lemmas about `Except`-valued folds -/

theorem exFoldlM_nil {β α : Type} (f : β → α → Except RustPanic β) (b : β) :
    List.foldlM f b ([] : List α) = .ok b := rfl

theorem exFoldlM_cons {β α : Type} (f : β → α → Except RustPanic β) (b : β) (a : α)
    (l : List α) :
    List.foldlM f b (a :: l) = (f b a).bind fun b1 => List.foldlM f b1 l := rfl

/-- A fold whose step never fails computes the corresponding pure fold. -/
theorem exFoldlM_ok {β α : Type} (f : β → α → Except RustPanic β) (g : β → α → β)
    (hf : ∀ b a, f b a = .ok (g b a)) :
    ∀ (l : List α) (b : β), List.foldlM f b l = .ok (List.foldl g b l) := by
  intro l
  induction l with
  | nil => intro b; rfl
  | cons a l ih =>
    intro b
    rw [exFoldlM_cons, hf]
    simpa using ih (g b a)

/-- If every successful step increases a measure by a step-determined amount,
a successful fold increases it by the total. -/
theorem exFoldlM_measure {β α : Type} (f : β → α → Except RustPanic β) (m : β → Nat)
    (k : α → Nat) (hf : ∀ b a b1, f b a = .ok b1 → m b1 = m b + k a) :
    ∀ (l : List α) (b b1 : β), List.foldlM f b l = .ok b1 → m b1 = m b + (l.map k).sum := by
  intro l
  induction l with
  | nil =>
    intro b b1 h
    rw [exFoldlM_nil] at h
    cases h
    simp
  | cons a l ih =>
    intro b b1 h
    rw [exFoldlM_cons] at h
    cases hfa : f b a with
    | error e => rw [hfa] at h; exact absurd h (by simp [Except.bind])
    | ok b2 =>
      rw [hfa] at h
      simp only [Except.bind] at h
      have := ih b2 b1 h
      rw [this, hf b a b2 hfa]
      simp [List.sum_cons]
      omega

theorem exFoldlM_append {β α : Type} (f : β → α → Except RustPanic β) :
    ∀ (l l2 : List α) (b : β),
      List.foldlM f b (l ++ l2) = (List.foldlM f b l).bind fun b1 => List.foldlM f b1 l2 := by
  intro l
  induction l with
  | nil => intro l2 b; rfl
  | cons a l ih =>
    intro l2 b
    rw [List.cons_append, exFoldlM_cons, exFoldlM_cons]
    cases f b a <;> simp [Except.bind, ih]

theorem exFoldlM_flatten {β α : Type} (f : β → α → Except RustPanic β) :
    ∀ (ls : List (List α)) (b : β),
      List.foldlM f b ls.flatten = List.foldlM (fun b l => List.foldlM f b l) b ls := by
  intro ls
  induction ls with
  | nil => intro b; rfl
  | cons l ls ih =>
    intro b
    rw [List.flatten_cons, exFoldlM_append, exFoldlM_cons]
    cases List.foldlM f b l <;> simp [Except.bind, ih]

theorem exFoldlM_map {β α γ : Type} (g : β → γ → Except RustPanic β) (h : α → γ) :
    ∀ (l : List α) (b : β),
      List.foldlM g b (l.map h) = List.foldlM (fun b a => g b (h a)) b l := by
  intro l
  induction l with
  | nil => intro b; rfl
  | cons a l ih =>
    intro b
    rw [List.map_cons, exFoldlM_cons, exFoldlM_cons]
    cases g b (h a) <;> simp [Except.bind, ih]

theorem iterTrials_ok {σ : Type} (trial : Except RustPanic σ) (r : σ) (h : trial = .ok r) :
    ∀ n, iterTrials n trial = .ok (List.replicate n r) := by
  intro n
  induction n with
  | zero => rfl
  | succ n ih =>
    rw [iterTrials, ih, h]
    rfl

theorem iterTrials_error {σ : Type} (trial : Except RustPanic σ) (e : RustPanic)
    (h : trial = .error e) : ∀ n, 0 < n → iterTrials n trial = .error e := by
  intro n hn
  cases n with
  | zero => exact absurd hn (by omega)
  | succ n => rw [iterTrials, h]; rfl

/-- `chars_to_bytes` does not change the expected end content. -/
theorem charsToBytes_end_content (t : TestData) : (charsToBytes t).end_content = t.end_content :=
  rfl

/-- Neither does the drivers' conditional pre-transform. -/
theorem benchTrace_end_content {σ : Type} (ops : UpstreamOps σ) (t : TestData) :
    (benchTrace ops t).end_content = t.end_content := by
  unfold benchTrace
  cases ops.editsUseByteOffsets <;> rfl

/-- The upstream driver only reads the `editsUseByteOffsets`, `from_str`,
`replace` and `len` fields of an adapter, so overriding its `insert` and
`remove` cannot change the benchmark outcome. -/
theorem upstreamBench_insert_remove_irrelevant {σ : Type} (ops : UpstreamOps σ)
    (ins : σ → Nat → List Char → Except RustPanic σ)
    (rem : σ → Nat → Nat → Except RustPanic σ) (trace : TestData) :
    upstreamBench { ops with insert := ins, remove := rem } trace = upstreamBench ops trace := by
  cases ops
  rfl

theorem exBind_ok {α β : Type} (a : α) (f : α → Except RustPanic β) :
    (Except.ok a).bind f = f a := rfl

theorem exBind_error {α β : Type} (e : RustPanic) (f : α → Except RustPanic β) :
    (Except.error e : Except RustPanic α).bind f = Except.error e := rfl

/-! ## Claim C3: the default `replace` composition -/

/-- C3: the default `replace(range, text)` body invokes, for every instance
and every `insert`/`remove` implementation: nothing when the range and the
text are both empty; only `remove` (on that range) when only the range is
non-empty; only `insert` (at the range start) when only the text is
non-empty; and `remove` first, then `insert`, when both are non-empty. The
equations hold for all `ins`/`rem`, so no other invocation can occur. -/
theorem default_replace_composition {σ : Type}
    (ins : σ → Nat → List Char → Except RustPanic σ)
    (rem : σ → Nat → Nat → Except RustPanic σ) (s : σ) (a b : Nat) (t : List Char) :
    (b ≤ a → t = [] → defaultReplace ins rem s a b t = .ok s) ∧
    (a < b → t = [] → defaultReplace ins rem s a b t = rem s a b) ∧
    (b ≤ a → t ≠ [] → defaultReplace ins rem s a b t = ins s a t) ∧
    (a < b → t ≠ [] →
      defaultReplace ins rem s a b t = (rem s a b).bind fun s2 => ins s2 a t) := by
  unfold defaultReplace
  refine ⟨fun h1 h2 => ?_, fun h1 h2 => ?_, fun h1 h2 => ?_, fun h1 h2 => ?_⟩
  · rw [if_neg (by omega), exBind_ok, h2, if_neg (by simp)]
  · rw [if_pos h1, h2]
    cases hr : rem s a b with
    | error e => rfl
    | ok v => rw [exBind_ok, if_neg (by simp)]
  · rw [if_neg (by omega), exBind_ok, if_pos h2]
  · rw [if_pos h1]
    cases hr : rem s a b with
    | error e => rfl
    | ok v => rw [exBind_ok, exBind_ok, if_pos h2]

/-- Witness for C3: all four cases exercised on the reference rope `"ab"`. -/
theorem default_replace_composition_witness :
    defaultReplace listInsert listRemove ("ab".toList) 1 1 [] = .ok ("ab".toList) ∧
    defaultReplace listInsert listRemove ("ab".toList) 0 1 [] = listRemove ("ab".toList) 0 1 ∧
    defaultReplace listInsert listRemove ("ab".toList) 1 1 ("c".toList)
      = listInsert ("ab".toList) 1 ("c".toList) ∧
    defaultReplace listInsert listRemove ("ab".toList) 0 1 ("c".toList)
      = (listRemove ("ab".toList) 0 1).bind fun s2 => listInsert s2 0 ("c".toList) :=
  ⟨(default_replace_composition listInsert listRemove ("ab".toList) 1 1 []).1
      (by decide) rfl,
   (default_replace_composition listInsert listRemove ("ab".toList) 0 1 []).2.1
      (by decide) rfl,
   (default_replace_composition listInsert listRemove ("ab".toList) 1 1 ("c".toList)).2.2.1
      (by decide) (by decide),
   (default_replace_composition listInsert listRemove ("ab".toList) 0 1 ("c".toList)).2.2.2
      (by decide) (by decide)⟩

/-! ## Claim C1: what the upstream driver replays and asserts -/

/-- C1 (amended): for every trace and every upstream-capable adapter,
`upstream::bench` creates a fresh instance from the (flag-pre-transformed)
trace's start content, invokes `replace` once per patch of every transaction
in trace order, and asserts that the resulting instance's `len()` equals the
BYTE length of the trace's `end_content` (Rust `String::len`); any mismatch
with that byte length is reported as an assertion failure (`Except.error
RustPanic.assertFailed`) that aborts that engine's run. The original claim's
"length measured in A's declared offset unit" is refuted by
`upstream_bench_unit_claim_counterexample`. -/
theorem upstream_bench_replays_and_checks_byte_length {σ : Type} (ops : UpstreamOps σ)
    (trace : TestData) :
    upstreamBench ops trace
      = (((ops.from_str (benchTrace ops trace).start_content).bind fun rope =>
            List.foldlM (fun rope p => ops.replace rope p.pos (p.pos + p.del) p.ins) rope
              ((benchTrace ops trace).txns.map TestTxn.patches).flatten).bind fun rope =>
          if ops.len rope = byteLen trace.end_content then .ok rope
          else .error RustPanic.assertFailed) := by
  unfold upstreamBench upstreamBenchRaw upstreamReplay
  rw [benchTrace_end_content]
  simp only [exFoldlM_flatten, exFoldlM_map]

/-- C1 counterexample: take the correct reference rope `listOps` (declared
offset unit: codepoints, since `EDITS_USE_BYTE_OFFSETS` is false) and
`uCexTrace`, whose end content `"é"` has 1 codepoint but 2 bytes. The run
completes with no assertion failure reported, although the resulting
instance's `len()` differs from the end content's length in the adapter's
declared offset unit — so the driver's check is against the byte length,
not the declared-unit length the claim states. -/
theorem upstream_bench_unit_claim_counterexample :
    exIsOk (upstreamBench listOps uCexTrace) = true ∧
    ¬ ((upstreamReplay listOps uCexTrace).map listOps.len
        = .ok (specUnitLen listOps uCexTrace.end_content)) := by
  decide

/-! ## Claim C4: the offset-unit flag and the pre-transform -/

/-- C4: each driver replays exactly the `chars_to_bytes`-transformed trace
when the adapter's static `EDITS_USE_BYTE_OFFSETS` is true and the untouched
trace when it is false; the flag is a per-adapter constant (a field of the
adapter's ops value, never an argument of a driver call), it defaults to
`false` (every adapter built by `mkUpstreamOps` without an override, and the
Automerge and Dt impls, leave it `false`), and the cola and Yrs impls
declare it `true`. -/
theorem edits_use_byte_offsets_contract {σ σ2 υ τ A R I DL O D T SV U : Type}
    (ops : UpstreamOps σ) (dops : DownstreamOps σ2 υ) (trace : TestData) (iters : Nat)
    (amE : AmEngine A) (cE : ColaEngine R I DL) (dE : DtEngine O) (yE : YrsEngine D T SV U) :
    (upstreamBench ops trace
      = upstreamBenchRaw ops (if ops.editsUseByteOffsets then charsToBytes trace else trace)) ∧
    (downstreamBench dops trace iters
      = downstreamBenchRaw dops
          (if dops.toUpstreamOps.editsUseByteOffsets then charsToBytes trace else trace)
          iters) ∧
    (∀ (fs : List Char → Except RustPanic τ) (i2 : τ → Nat → List Char → Except RustPanic τ)
        (r2 : τ → Nat → Nat → Except RustPanic τ) (l2 : τ → Nat),
      (mkUpstreamOps fs i2 r2 l2).editsUseByteOffsets = false) ∧
    (Automerge.ops amE).editsUseByteOffsets = false ∧
    (Dt.ops dE).editsUseByteOffsets = false ∧
    (Cola.ops cE).editsUseByteOffsets = true ∧
    (Yrs.ops yE).editsUseByteOffsets = true :=
  ⟨rfl, rfl, fun _ _ _ _ => rfl, rfl, rfl, rfl, rfl⟩

/-! ## Claim C2: the downstream driver clones the baseline per trial -/

/-- C2: let `(baseline, updates)` be what `upstream_updates` returns for the
(flag-pre-transformed) trace, and let applying every update in order to a
clone of `baseline` yield `r`. If `r`'s `len()` equals the byte length of the
trace's end content, the whole run succeeds and every one of the `iters`
measurement trials produced exactly `r` — each trial re-started from the
untouched `baseline` (the mandatory fresh clone) before applying any update;
if it differs, the run aborts with an assertion failure. -/
theorem downstream_bench_clones_baseline {σ υ : Type} (ops : DownstreamOps σ υ)
    (trace : TestData) (iters : Nat) (baseline : σ) (updates : List υ) (r : σ)
    (hderive : ops.upstream_updates (benchTrace ops.toUpstreamOps trace)
      = .ok (baseline, updates))
    (happly : updates.foldlM ops.apply_update baseline = .ok r) :
    (ops.toUpstreamOps.len r = byteLen trace.end_content →
      downstreamBench ops trace iters = .ok (List.replicate iters r)) ∧
    (ops.toUpstreamOps.len r ≠ byteLen trace.end_content → 0 < iters →
      downstreamBench ops trace iters = .error RustPanic.assertFailed) := by
  unfold downstreamBench downstreamBenchRaw
  rw [hderive, exBind_ok, benchTrace_end_content]
  constructor
  · intro hlen
    have htrial : downstreamTrial ops baseline updates (byteLen trace.end_content) = .ok r := by
      unfold downstreamTrial
      rw [happly, exBind_ok, if_pos hlen]
    exact iterTrials_ok _ r htrial iters
  · intro hlen hpos
    have htrial : downstreamTrial ops baseline updates (byteLen trace.end_content)
        = .error .assertFailed := by
      unfold downstreamTrial
      rw [happly, exBind_ok, if_neg hlen]
    exact iterTrials_error _ _ htrial iters hpos

/-- Witness for C2: the spec's downstream scenario — baseline
`"hello world"`, one update, three trials, each yielding `"hello there"`
(11 = byte length of the end content). -/
theorem downstream_bench_clones_baseline_witness :
    downstreamBench listDownstreamOps helloTrace 3
      = .ok (List.replicate 3 ("hello there".toList)) :=
  (downstream_bench_clones_baseline listDownstreamOps helloTrace 3
      ("hello world".toList) [⟨6, 5, "there".toList⟩] ("hello there".toList)
      (by decide) (by decide)).1 (by decide)

/-! ## Claims C5 and C6: update derivation granularity and fresh baseline -/

theorem sum_map_one {α : Type} : ∀ l : List α, (l.map fun _ => (1 : Nat)).sum = l.length := by
  intro l
  induction l with
  | nil => rfl
  | cons a l ih => simp [ih, Nat.add_comm]

/-- Each successful `Dt` derivation step appends exactly one update. -/
theorem dtDeriveStep_snd_length {O : Type} (E : DtEngine O)
    (acc : Dt O × List (List Nat)) (p : TestPatch) (acc1 : Dt O × List (List Nat))
    (h : dtDeriveStep E acc p = .ok acc1) : acc1.2.length = acc.2.length + 1 := by
  unfold dtDeriveStep at h
  cases hr : (Dt.ops E).replace acc.1 p.pos (p.pos + p.del) p.ins with
  | error e => rw [hr, exBind_error] at h; simp at h
  | ok up =>
    rw [hr, exBind_ok] at h
    injection h with h
    rw [← h]
    simp

/-- A whole transaction of `Dt` derivation appends one update per patch. -/
theorem dt_txn_snd_length {O : Type} (E : DtEngine O) (b : Dt O × List (List Nat))
    (txn : TestTxn) (b1 : Dt O × List (List Nat))
    (h : txn.patches.foldlM (dtDeriveStep E) b = .ok b1) :
    b1.2.length = b.2.length + txn.patches.length := by
  have := exFoldlM_measure (dtDeriveStep E) (fun acc => acc.2.length) (fun _ => 1)
      (fun b a b1 h => dtDeriveStep_snd_length E b a b1 h) txn.patches b b1 h
  rwa [sum_map_one] at this

/-- Each successful `Yrs` derivation step appends exactly one update. -/
theorem yrsDeriveStep_snd_length {D T SV U : Type} (E : YrsEngine D T SV U)
    (acc : Yrs D T × Yrs D T × List U) (p : TestPatch)
    (acc1 : Yrs D T × Yrs D T × List U)
    (h : yrsDeriveStep E acc p = .ok acc1) : acc1.2.2.length = acc.2.2.length + 1 := by
  unfold yrsDeriveStep at h
  cases hr : (Yrs.ops E).replace acc.1 p.pos (p.pos + p.del) p.ins with
  | error e => rw [hr, exBind_error] at h; simp at h
  | ok up =>
    rw [hr, exBind_ok] at h
    cases hd : rustUnwrap (E.decodeV1 (E.encodeDiffV1 up.doc (E.stateVector acc.2.1.doc))) with
    | error e => rw [hd, exBind_error] at h; simp at h
    | ok u =>
      rw [hd, exBind_ok, exBind_ok] at h
      injection h with h
      rw [← h]
      simp

/-- A whole transaction of `Yrs` derivation appends one update per patch. -/
theorem yrs_txn_snd_length {D T SV U : Type} (E : YrsEngine D T SV U)
    (b : Yrs D T × Yrs D T × List U) (txn : TestTxn) (b1 : Yrs D T × Yrs D T × List U)
    (h : txn.patches.foldlM (yrsDeriveStep E) b = .ok b1) :
    b1.2.2.length = b.2.2.length + txn.patches.length := by
  have := exFoldlM_measure (yrsDeriveStep E) (fun acc => acc.2.2.length) (fun _ => 1)
      (fun b a b1 h => yrsDeriveStep_snd_length E b a b1 h) txn.patches b b1 h
  rwa [sum_map_one] at this

/-- C5: for each implemented `upstream_updates` (the `Dt` and `Yrs` impls —
the Automerge one is an unconditional `todo!()` panic, see
`unimplemented_ops_panic`), whenever derivation returns, the returned update
sequence contains exactly one update per patch: its length equals the total
number of patches of the trace. One update is appended immediately after
each patch inside the per-patch loop, encoding the delta since the previous
capture point (`encode_from` = the pre-patch time for `Dt`, the downstream
replica's state vector for `Yrs`). -/
theorem upstream_updates_one_per_patch {O D T SV U : Type} (E : DtEngine O)
    (F : YrsEngine D T SV U) (trace : TestData) :
    (∀ (d : Dt O) (us : List (List Nat)),
      Dt.upstream_updates E trace = .ok (d, us) → us.length = totalPatches trace) ∧
    (∀ (d : Yrs D T) (us : List U),
      Yrs.upstream_updates F trace = .ok (d, us) → us.length = totalPatches trace) := by
  constructor
  · intro d us h
    unfold Dt.upstream_updates at h
    cases hout : trace.txns.foldlM (fun acc (txn : TestTxn) =>
        txn.patches.foldlM (dtDeriveStep E) acc)
        (Dt.from_str E trace.start_content, ([] : List (List Nat))) with
    | error e => rw [hout, exBind_error] at h; simp at h
    | ok acc =>
      rw [hout, exBind_ok] at h
      injection h with h
      injection h with h1 h2
      have hm := exFoldlM_measure _ (fun acc : Dt O × List (List Nat) => acc.2.length)
          (fun txn : TestTxn => txn.patches.length)
          (fun b a b1 h => dt_txn_snd_length E b a b1 h) trace.txns _ acc hout
      rw [← h2]
      simpa [totalPatches] using hm
  · intro d us h
    unfold Yrs.upstream_updates at h
    cases hout : trace.txns.foldlM (fun acc (txn : TestTxn) =>
        txn.patches.foldlM (yrsDeriveStep F) acc)
        (Yrs.from_str F trace.start_content, Yrs.from_str F trace.start_content,
          ([] : List U)) with
    | error e => rw [hout, exBind_error] at h; simp at h
    | ok acc =>
      rw [hout, exBind_ok] at h
      injection h with h
      injection h with h1 h2
      have hm := exFoldlM_measure _ (fun acc : Yrs D T × Yrs D T × List U => acc.2.2.length)
          (fun txn : TestTxn => txn.patches.length)
          (fun b a b1 h => yrs_txn_snd_length F b a b1 h) trace.txns _ acc hout
      rw [← h2]
      simpa [totalPatches] using hm

/-- Witness for C5: the two-patch trace yields exactly two updates for the
concrete `Dt` and `Yrs` engine models. -/
theorem upstream_updates_one_per_patch_witness :
    ([[2, 0], [3, 1]] : List (List Nat)).length = totalPatches twoPatchTrace ∧
    (["hello".toList, " world".toList] : List (List Char)).length
      = totalPatches twoPatchTrace :=
  ⟨(upstream_updates_one_per_patch dtE yrsE twoPatchTrace).1 ⟨1, 7, 0⟩ [[2, 0], [3, 1]]
      (by decide),
   (upstream_updates_one_per_patch dtE yrsE twoPatchTrace).2 ⟨[], ()⟩
      ["hello".toList, " world".toList] (by decide)⟩

/-- C6: whenever `upstream_updates` returns (the `Dt` and `Yrs` impls), the
instance component of the returned pair is a freshly created instance seeded
from the trace's start content (`from_str(start_content)`), not the internal
source instance that the per-patch loop mutated. -/
theorem upstream_updates_returns_fresh_instance {O D T SV U : Type} (E : DtEngine O)
    (F : YrsEngine D T SV U) (trace : TestData) :
    (∀ (d : Dt O) (us : List (List Nat)),
      Dt.upstream_updates E trace = .ok (d, us) → d = Dt.from_str E trace.start_content) ∧
    (∀ (d : Yrs D T) (us : List U),
      Yrs.upstream_updates F trace = .ok (d, us) → d = Yrs.from_str F trace.start_content) := by
  constructor
  · intro d us h
    unfold Dt.upstream_updates at h
    cases hout : trace.txns.foldlM (fun acc (txn : TestTxn) =>
        txn.patches.foldlM (dtDeriveStep E) acc)
        (Dt.from_str E trace.start_content, ([] : List (List Nat))) with
    | error e => rw [hout, exBind_error] at h; simp at h
    | ok acc =>
      rw [hout, exBind_ok] at h
      injection h with h
      injection h with h1 h2
      exact h1.symm
  · intro d us h
    unfold Yrs.upstream_updates at h
    cases hout : trace.txns.foldlM (fun acc (txn : TestTxn) =>
        txn.patches.foldlM (yrsDeriveStep F) acc)
        (Yrs.from_str F trace.start_content, Yrs.from_str F trace.start_content,
          ([] : List U)) with
    | error e => rw [hout, exBind_error] at h; simp at h
    | ok acc =>
      rw [hout, exBind_ok] at h
      injection h with h
      injection h with h1 h2
      exact h1.symm

/-- Witness for C6: for the concrete engine models and the two-patch trace,
the returned baseline is exactly `from_str` of the start content. -/
theorem upstream_updates_returns_fresh_instance_witness :
    (⟨1, 7, 0⟩ : Dt Nat) = Dt.from_str dtE twoPatchTrace.start_content ∧
    (⟨[], ()⟩ : Yrs (List Char) Unit) = Yrs.from_str yrsE twoPatchTrace.start_content :=
  ⟨(upstream_updates_returns_fresh_instance dtE yrsE twoPatchTrace).1 ⟨1, 7, 0⟩
      [[2, 0], [3, 1]] (by decide),
   (upstream_updates_returns_fresh_instance dtE yrsE twoPatchTrace).2 ⟨[], ()⟩
      ["hello".toList, " world".toList] (by decide)⟩

/-! ## Claim C7: capability gaps abort at the point of invocation -/

/-- C7: the operations an adapter does not implement panic for every input
instead of returning or silently doing nothing: `Automerge::insert` and
`Automerge::remove` are `unimplemented!()`, `Automerge::upstream_updates`
and `Yrs::apply_update` are `todo!()`. In this embedding a panic is the
`Except.error` outcome, so no `Except.ok` return exists for any input. -/
theorem unimplemented_ops_panic {A D T SV U : Type} :
    (∀ (a : Automerge A) (i : Nat) (t : List Char),
      Automerge.insert a i t = .error RustPanic.unimplemented) ∧
    (∀ (a : Automerge A) (x y : Nat),
      Automerge.remove a x y = .error RustPanic.unimplemented) ∧
    (∀ trace : TestData,
      Automerge.upstream_updates (A := A) trace = .error RustPanic.todo) ∧
    (∀ (F : YrsEngine D T SV U) (y : Yrs D T) (u : U),
      Yrs.apply_update F y u = .error RustPanic.todo) :=
  ⟨fun _ _ _ => rfl, fun _ _ _ => rfl, fun _ => rfl, fun _ _ _ => rfl⟩

/-! ## Claim C8: derivation is deterministic -/

/-- C8: two calls of `Dt::upstream_updates` on the same trace return the same
baseline and the same update sequence (the embedding is pure and the source
uses no randomness, clock or I/O), so applying each call's updates in order
to a clone of that call's returned baseline yields identical final document
state. -/
theorem derive_updates_deterministic {O : Type} (E : DtEngine O) (trace : TestData)
    (d1 d2 : Dt O) (us1 us2 : List (List Nat))
    (h1 : Dt.upstream_updates E trace = .ok (d1, us1))
    (h2 : Dt.upstream_updates E trace = .ok (d2, us2)) :
    us1.foldl (Dt.apply_update E) d1 = us2.foldl (Dt.apply_update E) d2 := by
  have h := h1.symm.trans h2
  injection h with h
  injection h with ha hb
  rw [ha, hb]

/-- Witness for C8 at the concrete `Dt` engine model and the two-patch
trace. -/
theorem derive_updates_deterministic_witness :
    ([[2, 0], [3, 1]] : List (List Nat)).foldl (Dt.apply_update dtE) ⟨1, 7, 0⟩
      = ([[2, 0], [3, 1]] : List (List Nat)).foldl (Dt.apply_update dtE) ⟨1, 7, 0⟩ :=
  derive_updates_deterministic dtE twoPatchTrace ⟨1, 7, 0⟩ ⟨1, 7, 0⟩
    [[2, 0], [3, 1]] [[2, 0], [3, 1]] (by decide) (by decide)

/-! ## Claim C9: the Automerge `replace` override bypasses the stubs -/

theorem rustUnwrap_ok {α : Type} (a : α) : rustUnwrap (Except.ok a) = .ok a := rfl

/-- The only panic `rustUnwrap` can produce is a failed unwrap. -/
theorem rustUnwrap_error_eq {α : Type} (x : Except Unit α) (e : RustPanic)
    (h : rustUnwrap x = .error e) : e = RustPanic.unwrapFailed := by
  cases x with
  | ok a => simp [rustUnwrap] at h
  | error u =>
    simp [rustUnwrap] at h
    exact h.symm

/-- If every failing step of a fold fails with the same panic, so does the
fold. -/
theorem exFoldlM_error_classify {β α : Type} (f : β → α → Except RustPanic β)
    (pe : RustPanic) (hf : ∀ b a e, f b a = .error e → e = pe) :
    ∀ (l : List α) (b : β) (e : RustPanic), List.foldlM f b l = .error e → e = pe := by
  intro l
  induction l with
  | nil => intro b e h; rw [exFoldlM_nil] at h; simp at h
  | cons a l ih =>
    intro b e h
    rw [exFoldlM_cons] at h
    cases hfa : f b a with
    | error e2 =>
      rw [hfa, exBind_error] at h
      injection h with h
      rw [← h]
      exact hf b a e2 hfa
    | ok b2 =>
      rw [hfa, exBind_ok] at h
      exact ih b2 e h

/-- `Automerge::from_str` can only panic with a failed unwrap. -/
theorem automerge_from_str_error {A : Type} (E : AmEngine A) (s : List Char) (e : RustPanic)
    (h : Automerge.from_str E s = .error e) : e = RustPanic.unwrapFailed := by
  unfold Automerge.from_str at h
  cases hx : rustUnwrap (E.reconcile E.newDoc s) with
  | ok d => rw [hx, exBind_ok] at h; simp at h
  | error e2 =>
    rw [hx, exBind_error] at h
    injection h with h
    rw [← h]
    exact rustUnwrap_error_eq _ e2 hx

/-- `Automerge::replace` can only panic with a failed unwrap. -/
theorem automerge_replace_error {A : Type} (E : AmEngine A) (a : Automerge A)
    (start stop : Nat) (text : List Char) (e : RustPanic)
    (h : Automerge.replace E a start stop text = .error e) : e = RustPanic.unwrapFailed := by
  unfold Automerge.replace at h
  cases hx : rustUnwrap
      (E.reconcile a.doc (E.splice a.text start ((stop - start : Nat) : Int) text)) with
  | ok d => rw [hx, exBind_ok] at h; simp at h
  | error e2 =>
    rw [hx, exBind_error] at h
    injection h with h
    rw [← h]
    exact rustUnwrap_error_eq _ e2 hx

/-- Replaying any trace through the Automerge adapter can only panic with a
failed reconcile unwrap — never with the stubs' panics. -/
theorem automerge_replay_error {A : Type} (E : AmEngine A) (t : TestData) (e : RustPanic)
    (h : upstreamReplay (Automerge.ops E) t = .error e) : e = RustPanic.unwrapFailed := by
  unfold upstreamReplay at h
  cases hx : (Automerge.ops E).from_str t.start_content with
  | error e2 =>
    rw [hx, exBind_error] at h
    injection h with h
    rw [← h]
    exact automerge_from_str_error E t.start_content e2 hx
  | ok r0 =>
    rw [hx, exBind_ok] at h
    refine exFoldlM_error_classify _ RustPanic.unwrapFailed ?_ t.txns r0 e h
    intro b txn e2 h2
    exact exFoldlM_error_classify _ RustPanic.unwrapFailed
      (fun b2 p e3 h3 => automerge_replace_error E b2 p.pos (p.pos + p.del) p.ins e3 h3)
      txn.patches b e2 h2

/-- C9: `Automerge::replace` splices the text buffer and reconciles the
document directly, never calling the adapter's own `insert`/`remove`:
(1) the upstream benchmark outcome is unchanged under arbitrary replacement
of the two stubs; (2) for every engine whose `reconcile` succeeds (with
outcomes witnessed by `g`), replaying any trace succeeds, computing the pure
splice fold; (3) for every engine behaviour whatsoever, the benchmark never
aborts with the stubs' `unimplemented!()`/`todo!()` panics — it succeeds, or
fails the final length assertion, or panics on the `reconcile(...).unwrap()`
inside `from_str`/`replace`; (4) a patch with an empty range still performs
a degenerate splice (deletion count 0) and the following reconcile, rather
than skipping the operation. -/
theorem automerge_replace_avoids_stubs {A : Type} (E : AmEngine A) :
    (∀ (i2 : Automerge A → Nat → List Char → Except RustPanic (Automerge A))
       (r2 : Automerge A → Nat → Nat → Except RustPanic (Automerge A)) (trace : TestData),
      upstreamBench { Automerge.ops E with insert := i2, remove := r2 } trace
        = upstreamBench (Automerge.ops E) trace) ∧
    (∀ (g : A → List Char → A), (∀ (d : A) (s : List Char), E.reconcile d s = .ok (g d s)) →
      ∀ t : TestData, upstreamReplay (Automerge.ops E) t
        = .ok (t.txns.foldl
            (fun rope txn => txn.patches.foldl
              (fun rope p => Automerge.spliced E g rope p.pos (p.pos + p.del) p.ins) rope)
            { doc := g E.newDoc t.start_content, text := t.start_content })) ∧
    (∀ trace : TestData, exIsOk (upstreamBench (Automerge.ops E) trace) = true ∨
      upstreamBench (Automerge.ops E) trace = .error RustPanic.assertFailed ∨
      upstreamBench (Automerge.ops E) trace = .error RustPanic.unwrapFailed) ∧
    (∀ (a : Automerge A) (p : Nat) (t : List Char),
      Automerge.replace E a p p t
        = (rustUnwrap (E.reconcile a.doc (E.splice a.text p 0 t))).bind
            fun doc => .ok ⟨doc, E.splice a.text p 0 t⟩) := by
  refine ⟨fun i2 r2 trace => upstreamBench_insert_remove_irrelevant (Automerge.ops E) i2 r2 trace,
    fun g hg t => ?_, fun trace => ?_, fun a p t => ?_⟩
  · have hfs : Automerge.from_str E t.start_content
        = .ok { doc := g E.newDoc t.start_content, text := t.start_content } := by
      unfold Automerge.from_str
      rw [hg, rustUnwrap_ok, exBind_ok]
    have hrep : ∀ (b : Automerge A) (p : TestPatch),
        (Automerge.ops E).replace b p.pos (p.pos + p.del) p.ins
          = .ok (Automerge.spliced E g b p.pos (p.pos + p.del) p.ins) := by
      intro b p
      show Automerge.replace E b p.pos (p.pos + p.del) p.ins = _
      unfold Automerge.replace
      rw [hg, rustUnwrap_ok, exBind_ok]
      rfl
    unfold upstreamReplay
    show (Automerge.from_str E t.start_content).bind _ = _
    rw [hfs, exBind_ok]
    exact exFoldlM_ok _ _ (fun b txn => exFoldlM_ok _ _ hrep txn.patches b) t.txns _
  · unfold upstreamBench upstreamBenchRaw
    cases hrep : upstreamReplay (Automerge.ops E) (benchTrace (Automerge.ops E) trace) with
    | ok r =>
      rw [exBind_ok]
      split_ifs with hc
      · exact Or.inl rfl
      · exact Or.inr (Or.inl rfl)
    | error e =>
      rw [exBind_error, automerge_replay_error E _ e hrep]
      exact Or.inr (Or.inr rfl)
  · simp only [Automerge.replace, Nat.sub_self, Nat.cast_zero]

/-- Witness for C9 at a concrete engine whose `reconcile` always succeeds:
replaying the hello-world trace yields the spliced document. -/
theorem automerge_replace_avoids_stubs_witness :
    upstreamReplay (Automerge.ops amEok) helloTrace
      = .ok ⟨"hello there".toList, "hello there".toList⟩ :=
  ((automerge_replace_avoids_stubs amEok).2.1 (fun _ t => t) (fun _ _ => rfl)
      helloTrace).trans (by decide)

/-! ## Claim C10: `Dt::apply_update` discards the decode result -/

/-- C10: `Dt::apply_update` keeps whatever op log `decode_and_add` left
behind and discards the returned `Result`, so for every byte sequence —
including ones that are not a valid encoded delta — it returns normally
(`Except.ok` through the `Downstream` interface, never a panic or an error);
and for any engine whose failing `decode_and_add` leaves the op log
unchanged, a failed decode leaves the whole instance unchanged. -/
theorem dt_apply_update_ignores_decode_result {O : Type} (E : DtEngine O) (d : Dt O)
    (u : List Nat) :
    Dt.apply_update E d u = { d with oplog := (E.decodeAndAdd d.oplog u).1 } ∧
    (Dt.downstreamOps E).apply_update d u = .ok (Dt.apply_update E d u) ∧
    ((∀ (o : O) (v : List Nat),
        exIsOk (E.decodeAndAdd o v).2 = false → (E.decodeAndAdd o v).1 = o) →
      exIsOk (E.decodeAndAdd d.oplog u).2 = false → Dt.apply_update E d u = d) := by
  refine ⟨rfl, rfl, fun hatomic hfail => ?_⟩
  unfold Dt.apply_update
  rw [hatomic d.oplog u hfail]

/-- Witness for C10: a concrete engine whose decode always fails without
touching the op log; `apply_update` on garbage bytes is the identity. -/
theorem dt_apply_update_ignores_decode_result_witness :
    Dt.apply_update dtEfail ⟨5, 7, 3⟩ [1, 2, 3] = ⟨5, 7, 3⟩ :=
  (dt_apply_update_ignores_decode_result dtEfail ⟨5, 7, 3⟩ [1, 2, 3]).2.2
    (fun _ _ _ => rfl) rfl
